import Mathlib

/-!
Verification of the phone-number validation filter of `islands/PhoneValidator.tsx`
(the `handleValidate` handler together with its lookup tables `numberTypeLabels`
and `errorMessages`).  The external `intl-tel-input` engine is modelled as an
opaque snapshot of its read accessors (`isValidNumber`, `getValidationError`,
`getSelectedCountryData`, `getNumberType`, `getNumber`) plus the raw text of the
input element; the filter itself is embedded as a pure function of that snapshot
and the user-selected number-type filter.
-/

/-- The user-selected number-type filter:
`type NumberType = "mobile" | "fixed_line" | "any"` in the source. -/
inductive NumberTypeFilter where
  | any
  | mobile
  | fixed_line
deriving DecidableEq, Repr

-- Number type IDs from libphonenumber (`const NumberType = {...}` in the source).
namespace NumberTypeId

def FIXED_LINE : Int := 0
def MOBILE : Int := 1
def FIXED_LINE_OR_MOBILE : Int := 2
def TOLL_FREE : Int := 3
def PREMIUM_RATE : Int := 4
def SHARED_COST : Int := 5
def VOIP : Int := 6
def PERSONAL_NUMBER : Int := 7
def PAGER : Int := 8
def UAN : Int := 9
def VOICEMAIL : Int := 10
def UNKNOWN : Int := -1

end NumberTypeId

/-- JavaScript `String.prototype.toUpperCase` on the ASCII iso2 country codes
the engine produces, modelled as per-character uppercasing. -/
def jsToUpper (s : String) : String := String.mk (s.data.map Char.toUpper)

/-- JavaScript `x || d` for a possibly-absent string `x`: the default is taken
when `x` is `undefined` or the (falsy) empty string. -/
def jsOr (x : Option String) (d : String) : String :=
  match x with
  | none => d
  | some s => if s = "" then d else s

/-- JavaScript `s || d` for a plain string `s` (empty string is falsy). -/
def jsOrStr (s : String) (d : String) : String :=
  if s = "" then d else s

/-- `const numberTypeLabels: Record<number, string>` from the source; `none`
models a key that is absent from the record (lookup yields `undefined`). -/
def numberTypeLabels (t : Int) : Option String :=
  if t = NumberTypeId.FIXED_LINE then some "Fixed Line"
  else if t = NumberTypeId.MOBILE then some "Mobile"
  else if t = NumberTypeId.FIXED_LINE_OR_MOBILE then some "Fixed Line or Mobile"
  else if t = NumberTypeId.TOLL_FREE then some "Toll Free"
  else if t = NumberTypeId.PREMIUM_RATE then some "Premium Rate"
  else if t = NumberTypeId.SHARED_COST then some "Shared Cost"
  else if t = NumberTypeId.VOIP then some "VoIP"
  else if t = NumberTypeId.PERSONAL_NUMBER then some "Personal Number"
  else if t = NumberTypeId.PAGER then some "Pager"
  else if t = NumberTypeId.UAN then some "UAN"
  else if t = NumberTypeId.VOICEMAIL then some "Voicemail"
  else if t = NumberTypeId.UNKNOWN then some "Unknown"
  else none

/-- `const errorMessages: Record<number, string>` from the source; `none`
models a key that is absent from the record. -/
def errorMessages (c : Int) : Option String :=
  if c = 1 then some "Invalid country code"
  else if c = 2 then some "Number too short"
  else if c = 3 then some "Number too long"
  else if c = 4 then some "Not a number"
  else if c = 5 then some "Invalid length"
  else if c = -99 then some "Validation unavailable"
  else none

/-- Snapshot of everything `handleValidate` reads from the engine and the DOM:
`iti.isValidNumber()`, `iti.getValidationError()`, `iti.getNumberType()`,
`iti.getSelectedCountryData().iso2` / `.name` (both optional in the engine's
country-data record), `iti.getNumber(NumberFormat.NATIONAL)` /
`iti.getNumber(NumberFormat.INTERNATIONAL)` (strings, possibly empty), and
`inputRef.current.value` (the raw text the user typed). -/
structure RawClassification where
  isValid : Bool
  errorCode : Int
  numberType : Int
  iso2 : Option String
  name : Option String
  nationalFormat : String
  internationalFormat : String
  rawInput : String
deriving DecidableEq, Repr

/-- The `ValidationResult` interface of the source. -/
structure ValidationResult where
  isValid : Bool
  number : String
  countryCode : String
  countryName : String
  nationalNumber : String
  internationalNumber : String
  numberType : String
  errorMessage : Option String
deriving DecidableEq, Repr

/-- The decision logic of `handleValidate` in `islands/PhoneValidator.tsx`,
as a pure function of the engine/DOM snapshot and the selected type filter.
Each record literal mirrors one `result.value = {...}` assignment of the
source; the early `return`s become the branches of the conditionals. -/
def handleValidate (iti : RawClassification) (typeFilter : NumberTypeFilter) : ValidationResult :=
  if !iti.isValid then
    { isValid := false
      number := iti.rawInput
      countryCode := jsOr (iti.iso2.map jsToUpper) ""
      countryName := jsOr iti.name ""
      nationalNumber := ""
      internationalNumber := ""
      numberType := ""
      errorMessage := some (jsOr (errorMessages iti.errorCode) "Invalid number") }
  else
    let numberType := iti.numberType
    let isMobile := numberType == NumberTypeId.MOBILE || numberType == NumberTypeId.FIXED_LINE_OR_MOBILE
    let isFixedLine := numberType == NumberTypeId.FIXED_LINE || numberType == NumberTypeId.FIXED_LINE_OR_MOBILE
    if typeFilter != NumberTypeFilter.any then
      if typeFilter == NumberTypeFilter.mobile && !isMobile then
        { isValid := false
          number := iti.rawInput
          countryCode := jsOr (iti.iso2.map jsToUpper) ""
          countryName := jsOr iti.name ""
          nationalNumber := jsOrStr iti.nationalFormat ""
          internationalNumber := jsOrStr iti.internationalFormat ""
          numberType := jsOr (numberTypeLabels numberType) "Unknown"
          errorMessage := some ("Expected mobile number, got " ++ jsOr (numberTypeLabels numberType) "Unknown") }
      else if typeFilter == NumberTypeFilter.fixed_line && !isFixedLine then
        { isValid := false
          number := iti.rawInput
          countryCode := jsOr (iti.iso2.map jsToUpper) ""
          countryName := jsOr iti.name ""
          nationalNumber := jsOrStr iti.nationalFormat ""
          internationalNumber := jsOrStr iti.internationalFormat ""
          numberType := jsOr (numberTypeLabels numberType) "Unknown"
          errorMessage := some ("Expected fixed line number, got " ++ jsOr (numberTypeLabels numberType) "Unknown") }
      else
        { isValid := true
          number := iti.rawInput
          countryCode := jsOr (iti.iso2.map jsToUpper) ""
          countryName := jsOr iti.name ""
          nationalNumber := jsOrStr iti.nationalFormat ""
          internationalNumber := jsOrStr iti.internationalFormat ""
          numberType := jsOr (numberTypeLabels numberType) "Unknown"
          errorMessage := none }
    else
      { isValid := true
        number := iti.rawInput
        countryCode := jsOr (iti.iso2.map jsToUpper) ""
        countryName := jsOr iti.name ""
        nationalNumber := jsOrStr iti.nationalFormat ""
        internationalNumber := jsOrStr iti.internationalFormat ""
        numberType := jsOr (numberTypeLabels numberType) "Unknown"
        errorMessage := none }

/-- The full validate action including the engine: the strict-mode checkbox is
passed into the engine's configuration (`strictMode: strictMode.value` in the
`intlTelInput` options), so the engine's readouts are a function of it; the
decision logic then runs on those readouts and the filter alone. -/
def runValidate (engine : Bool → RawClassification) (strictMode : Bool)
    (typeFilter : NumberTypeFilter) : ValidationResult :=
  handleValidate (engine strictMode) typeFilter

/-- A sample valid MOBILE classification (scenario 2 of the spec). -/
def sampleMobile : RawClassification :=
  { isValid := true
    errorCode := 0
    numberType := NumberTypeId.MOBILE
    iso2 := some "us"
    name := some "United States"
    nationalFormat := "(555) 123-4567"
    internationalFormat := "+1 555-123-4567"
    rawInput := "5551234567" }

/-- A sample engine-rejected classification (scenario 1 of the spec:
error code 2, raw input "123"). -/
def sampleInvalid : RawClassification :=
  { isValid := false
    errorCode := 2
    numberType := NumberTypeId.UNKNOWN
    iso2 := some "us"
    name := some "United States"
    nationalFormat := ""
    internationalFormat := ""
    rawInput := "123" }

/-- A sample valid TOLL_FREE classification, rejected by both non-ANY filters. -/
def sampleTollFree : RawClassification :=
  { sampleMobile with numberType := NumberTypeId.TOLL_FREE }

/-- A sample valid classification whose type the engine could not determine. -/
def sampleUnknown : RawClassification :=
  { sampleMobile with numberType := NumberTypeId.UNKNOWN }

example :
    handleValidate sampleMobile NumberTypeFilter.any =
      { isValid := true
        number := "5551234567"
        countryCode := "US"
        countryName := "United States"
        nationalNumber := "(555) 123-4567"
        internationalNumber := "+1 555-123-4567"
        numberType := "Mobile"
        errorMessage := none } := by decide

example :
    (handleValidate sampleMobile NumberTypeFilter.fixed_line).errorMessage =
      some "Expected fixed line number, got Mobile" := by decide

example :
    handleValidate { sampleMobile with isValid := false, errorCode := 2 } NumberTypeFilter.any =
      { isValid := false
        number := "5551234567"
        countryCode := "US"
        countryName := "United States"
        nationalNumber := ""
        internationalNumber := ""
        numberType := ""
        errorMessage := some "Number too short" } := by decide

example :
    (handleValidate { sampleMobile with isValid := false, errorCode := 999 }
      NumberTypeFilter.any).errorMessage = some "Invalid number" := by decide

/-- `s || ""` is the identity on strings. -/
theorem jsOrStr_empty (s : String) : jsOrStr s "" = s := by
  unfold jsOrStr
  split
  · simp_all
  · rfl

/-- `x || ""` agrees with `Option.getD` at the empty default. -/
theorem jsOr_empty (x : Option String) : jsOr x "" = x.getD "" := by
  unfold jsOr
  cases x with
  | none => rfl
  | some s =>
    simp only [Option.getD_some]
    split
    · simp_all
    · rfl

/-- Every entry of the error-message table is a nonempty string, so the JS
falsy-fallback lookup agrees with `Option.getD`. -/
theorem jsOr_errorMessages (c : Int) :
    jsOr (errorMessages c) "Invalid number" = (errorMessages c).getD "Invalid number" := by
  unfold errorMessages
  split_ifs <;> simp [jsOr]

/-- C1: for every raw classification with `raw.isValid = true` and every type
filter, the final verdict `isValid` is `true` exactly when the filter is ANY,
or the filter is MOBILE and `raw.numberType ∈ {MOBILE, FIXED_LINE_OR_MOBILE}`,
or the filter is FIXED_LINE and
`raw.numberType ∈ {FIXED_LINE, FIXED_LINE_OR_MOBILE}`; in particular a
FIXED_LINE_OR_MOBILE number passes both non-ANY filters. -/
theorem C1_filter_verdict (raw : RawClassification) (f : NumberTypeFilter)
    (h : raw.isValid = true) :
    (handleValidate raw f).isValid = true ↔
      (f = NumberTypeFilter.any ∨
       (f = NumberTypeFilter.mobile ∧
         (raw.numberType = NumberTypeId.MOBILE ∨
          raw.numberType = NumberTypeId.FIXED_LINE_OR_MOBILE)) ∨
       (f = NumberTypeFilter.fixed_line ∧
         (raw.numberType = NumberTypeId.FIXED_LINE ∨
          raw.numberType = NumberTypeId.FIXED_LINE_OR_MOBILE))) := by
  unfold handleValidate
  cases f <;>
    simp [h, NumberTypeId.FIXED_LINE, NumberTypeId.MOBILE, NumberTypeId.FIXED_LINE_OR_MOBILE] <;>
    split_ifs <;> simp_all <;> tauto

theorem C1_filter_verdict_witness :
    sampleMobile.isValid = true ∧
    ((handleValidate sampleMobile NumberTypeFilter.mobile).isValid = true ↔
      (NumberTypeFilter.mobile = NumberTypeFilter.any ∨
       (NumberTypeFilter.mobile = NumberTypeFilter.mobile ∧
         (sampleMobile.numberType = NumberTypeId.MOBILE ∨
          sampleMobile.numberType = NumberTypeId.FIXED_LINE_OR_MOBILE)) ∨
       (NumberTypeFilter.mobile = NumberTypeFilter.fixed_line ∧
         (sampleMobile.numberType = NumberTypeId.FIXED_LINE ∨
          sampleMobile.numberType = NumberTypeId.FIXED_LINE_OR_MOBILE)))) :=
  ⟨rfl, C1_filter_verdict sampleMobile NumberTypeFilter.mobile rfl⟩

/-- C2: for every raw classification and every type filter, the produced
`ValidationResult` has `errorMessage` present if and only if `isValid` is
false. -/
theorem C2_errorMessage_iff_invalid (raw : RawClassification) (f : NumberTypeFilter) :
    (handleValidate raw f).errorMessage.isSome = true ↔
      (handleValidate raw f).isValid = false := by
  unfold handleValidate
  cases hv : raw.isValid <;> cases f <;> simp <;> split_ifs <;> simp

/-- C6: the ANY filter never rejects a number the engine accepted. -/
theorem C6_any_never_rejects (raw : RawClassification) (h : raw.isValid = true) :
    (handleValidate raw NumberTypeFilter.any).isValid = true := by
  unfold handleValidate
  simp [h]

theorem C6_any_never_rejects_witness :
    sampleMobile.isValid = true ∧
    (handleValidate sampleMobile NumberTypeFilter.any).isValid = true :=
  ⟨rfl, C6_any_never_rejects sampleMobile rfl⟩

/-- C9: the filter is a deterministic pure function — two applications to the
same raw classification and type filter yield identical results. -/
theorem C9_deterministic (raw : RawClassification) (f : NumberTypeFilter) :
    handleValidate raw f = handleValidate raw f := rfl

/-- C3: whenever the engine reports the number invalid, the result (for any
filter) has `isValid = false`, empty `nationalNumber`, `internationalNumber`
and `numberType`, and `errorMessage` drawn from the `errorMessages` table at
`raw.errorCode`, falling back to "Invalid number" for codes outside the
table. -/
theorem C3_basic_invalidity (raw : RawClassification) (f : NumberTypeFilter)
    (h : raw.isValid = false) :
    (handleValidate raw f).isValid = false ∧
    (handleValidate raw f).nationalNumber = "" ∧
    (handleValidate raw f).internationalNumber = "" ∧
    (handleValidate raw f).numberType = "" ∧
    (handleValidate raw f).errorMessage =
      some ((errorMessages raw.errorCode).getD "Invalid number") := by
  unfold handleValidate
  simp [h, jsOr_errorMessages]

theorem C3_basic_invalidity_witness :
    sampleInvalid.isValid = false ∧
    ((handleValidate sampleInvalid NumberTypeFilter.any).isValid = false ∧
     (handleValidate sampleInvalid NumberTypeFilter.any).nationalNumber = "" ∧
     (handleValidate sampleInvalid NumberTypeFilter.any).internationalNumber = "" ∧
     (handleValidate sampleInvalid NumberTypeFilter.any).numberType = "" ∧
     (handleValidate sampleInvalid NumberTypeFilter.any).errorMessage =
       some ((errorMessages sampleInvalid.errorCode).getD "Invalid number")) :=
  ⟨rfl, C3_basic_invalidity sampleInvalid NumberTypeFilter.any rfl⟩

/-- C4: whenever the engine reports the number valid, the result — accepted or
rejected by the type filter alike — carries the engine's formatted national and
international strings verbatim and the label of the engine's number type,
never emptied by the filter. -/
theorem C4_valid_fields_verbatim (raw : RawClassification) (f : NumberTypeFilter)
    (h : raw.isValid = true) :
    (handleValidate raw f).nationalNumber = raw.nationalFormat ∧
    (handleValidate raw f).internationalNumber = raw.internationalFormat ∧
    (handleValidate raw f).numberType = jsOr (numberTypeLabels raw.numberType) "Unknown" := by
  unfold handleValidate
  simp [h, jsOrStr_empty]
  split_ifs <;> simp [jsOrStr_empty]

theorem C4_valid_fields_verbatim_witness :
    sampleMobile.isValid = true ∧
    ((handleValidate sampleMobile NumberTypeFilter.fixed_line).nationalNumber =
       sampleMobile.nationalFormat ∧
     (handleValidate sampleMobile NumberTypeFilter.fixed_line).internationalNumber =
       sampleMobile.internationalFormat ∧
     (handleValidate sampleMobile NumberTypeFilter.fixed_line).numberType =
       jsOr (numberTypeLabels sampleMobile.numberType) "Unknown") :=
  ⟨rfl, C4_valid_fields_verbatim sampleMobile NumberTypeFilter.fixed_line rfl⟩

/-- C7: on a type-mismatch rejection the error message is exactly the expected
prefix ("Expected mobile number, got " or "Expected fixed line number, got ")
followed by the label of the engine's number type. -/
theorem C7_mismatch_message (raw : RawClassification) (h : raw.isValid = true) :
    (raw.numberType ≠ NumberTypeId.MOBILE →
     raw.numberType ≠ NumberTypeId.FIXED_LINE_OR_MOBILE →
      (handleValidate raw NumberTypeFilter.mobile).errorMessage =
        some ("Expected mobile number, got " ++
          jsOr (numberTypeLabels raw.numberType) "Unknown")) ∧
    (raw.numberType ≠ NumberTypeId.FIXED_LINE →
     raw.numberType ≠ NumberTypeId.FIXED_LINE_OR_MOBILE →
      (handleValidate raw NumberTypeFilter.fixed_line).errorMessage =
        some ("Expected fixed line number, got " ++
          jsOr (numberTypeLabels raw.numberType) "Unknown")) := by
  unfold handleValidate
  simp [h]
  constructor <;> intro h1 h2 <;> split_ifs <;> simp_all

theorem C7_mismatch_message_witness :
    sampleTollFree.isValid = true ∧
    (handleValidate sampleTollFree NumberTypeFilter.mobile).errorMessage =
      some ("Expected mobile number, got " ++
        jsOr (numberTypeLabels sampleTollFree.numberType) "Unknown") ∧
    (handleValidate sampleTollFree NumberTypeFilter.fixed_line).errorMessage =
      some ("Expected fixed line number, got " ++
        jsOr (numberTypeLabels sampleTollFree.numberType) "Unknown") :=
  ⟨rfl,
   (C7_mismatch_message sampleTollFree rfl).1 (by decide) (by decide),
   (C7_mismatch_message sampleTollFree rfl).2 (by decide) (by decide)⟩

/-- C8: strict mode never reaches the decision logic — it is only passed into
the engine's configuration, so two runs whose engine readouts and type filter
agree produce identical results whatever the strict-mode values were. -/
theorem C8_strict_mode_opaque (engine : Bool → RawClassification)
    (s1 s2 : Bool) (f : NumberTypeFilter) (h : engine s1 = engine s2) :
    runValidate engine s1 f = runValidate engine s2 f := by
  unfold runValidate
  rw [h]

theorem C8_strict_mode_opaque_witness :
    (fun _ : Bool => sampleMobile) true = (fun _ : Bool => sampleMobile) false ∧
    runValidate (fun _ : Bool => sampleMobile) true NumberTypeFilter.any =
      runValidate (fun _ : Bool => sampleMobile) false NumberTypeFilter.any :=
  ⟨rfl, C8_strict_mode_opaque (fun _ : Bool => sampleMobile) true false NumberTypeFilter.any rfl⟩

/-- C10: in every outcome the result's `countryCode` is the engine's iso2 code
uppercased (empty when the engine provides none), `countryName` is the engine's
country name (empty when none), and `number` echoes the exact raw input. -/
theorem C10_country_and_echo (raw : RawClassification) (f : NumberTypeFilter) :
    (handleValidate raw f).countryCode = (raw.iso2.map jsToUpper).getD "" ∧
    (handleValidate raw f).countryName = raw.name.getD "" ∧
    (handleValidate raw f).number = raw.rawInput := by
  unfold handleValidate
  cases hv : raw.isValid <;> cases f <;> simp [jsOr_empty] <;>
    split_ifs <;> simp [jsOr_empty]

/-- C5: the label expression `numberTypeLabels[t] || "Unknown"` maps each of
the twelve enumerated number types to its fixed display string and falls back
to "Unknown" for every type code outside the table; in particular a valid
number of type UNKNOWN rejected by a non-ANY filter carries the label
"Unknown" in its error message. -/
theorem C5_labels :
    (jsOr (numberTypeLabels NumberTypeId.FIXED_LINE) "Unknown" = "Fixed Line" ∧
     jsOr (numberTypeLabels NumberTypeId.MOBILE) "Unknown" = "Mobile" ∧
     jsOr (numberTypeLabels NumberTypeId.FIXED_LINE_OR_MOBILE) "Unknown" = "Fixed Line or Mobile" ∧
     jsOr (numberTypeLabels NumberTypeId.TOLL_FREE) "Unknown" = "Toll Free" ∧
     jsOr (numberTypeLabels NumberTypeId.PREMIUM_RATE) "Unknown" = "Premium Rate" ∧
     jsOr (numberTypeLabels NumberTypeId.SHARED_COST) "Unknown" = "Shared Cost" ∧
     jsOr (numberTypeLabels NumberTypeId.VOIP) "Unknown" = "VoIP" ∧
     jsOr (numberTypeLabels NumberTypeId.PERSONAL_NUMBER) "Unknown" = "Personal Number" ∧
     jsOr (numberTypeLabels NumberTypeId.PAGER) "Unknown" = "Pager" ∧
     jsOr (numberTypeLabels NumberTypeId.UAN) "Unknown" = "UAN" ∧
     jsOr (numberTypeLabels NumberTypeId.VOICEMAIL) "Unknown" = "Voicemail" ∧
     jsOr (numberTypeLabels NumberTypeId.UNKNOWN) "Unknown" = "Unknown") ∧
    (∀ t : Int, ((t < 0 ∧ t ≠ -1) ∨ 10 < t) →
      jsOr (numberTypeLabels t) "Unknown" = "Unknown") ∧
    (∀ raw : RawClassification, raw.isValid = true →
      raw.numberType = NumberTypeId.UNKNOWN →
      (handleValidate raw NumberTypeFilter.mobile).errorMessage =
        some "Expected mobile number, got Unknown" ∧
      (handleValidate raw NumberTypeFilter.fixed_line).errorMessage =
        some "Expected fixed line number, got Unknown") := by
  refine ⟨by decide, ?_, ?_⟩
  · intro t ht
    unfold numberTypeLabels NumberTypeId.FIXED_LINE NumberTypeId.MOBILE
      NumberTypeId.FIXED_LINE_OR_MOBILE NumberTypeId.TOLL_FREE NumberTypeId.PREMIUM_RATE
      NumberTypeId.SHARED_COST NumberTypeId.VOIP NumberTypeId.PERSONAL_NUMBER
      NumberTypeId.PAGER NumberTypeId.UAN NumberTypeId.VOICEMAIL NumberTypeId.UNKNOWN
    repeat rw [if_neg (by omega)]
    rfl
  · intro raw h hnt
    unfold handleValidate
    simp [h, hnt, NumberTypeId.MOBILE, NumberTypeId.FIXED_LINE,
      NumberTypeId.FIXED_LINE_OR_MOBILE, NumberTypeId.UNKNOWN, NumberTypeId.TOLL_FREE,
      NumberTypeId.PREMIUM_RATE, NumberTypeId.SHARED_COST, NumberTypeId.VOIP,
      NumberTypeId.PERSONAL_NUMBER, NumberTypeId.PAGER, NumberTypeId.UAN,
      NumberTypeId.VOICEMAIL, numberTypeLabels, jsOr]

theorem C5_labels_witness :
    jsOr (numberTypeLabels 99) "Unknown" = "Unknown" ∧
    (handleValidate sampleUnknown NumberTypeFilter.mobile).errorMessage =
      some "Expected mobile number, got Unknown" ∧
    (handleValidate sampleUnknown NumberTypeFilter.fixed_line).errorMessage =
      some "Expected fixed line number, got Unknown" :=
  ⟨C5_labels.2.1 99 (by decide),
   (C5_labels.2.2 sampleUnknown rfl rfl).1,
   (C5_labels.2.2 sampleUnknown rfl rfl).2⟩
